import Mathlib

/-!
Verification development for the glyph composition engine of the
character-generator repository.

The engine lives in `scripts/compose_svg.py` (viewBox parsing, left-right and
top-bottom composition geometry) and `scripts/app.py` (the three-component
nesting driver `compose_new_character` and the namespace sanitizer
`sanitize_svg_file`).

Embedding conventions:
- Python strings are embedded as `List Char` (abbreviated `Chars`).
- Python floats are embedded as `Rat`; Python float division raises
  `ZeroDivisionError` on a zero divisor, which is modelled by `pydiv`
  returning `Except`.
- An SVG resource on disk is embedded as `Option SvgDoc`: `none` stands for a
  file whose XML parse fails (`ET.parse` raising `ParseError`), `some d` for a
  parsed document with root attribute `viewBox` and top-level children.
- Child elements are opaque (`Elem.raw`) except for the `<g>` wrapper groups
  the compositor itself creates (`Elem.g tx ty sx sy children` embeds
  `<g transform="translate(tx,ty) scale(sx,sy)">`).
- Exceptions are modelled with `Except PyErr`.
-/

abbrev Chars := List Char

/-- Python `str.strip()` restricted to whitespace: drop leading and trailing
whitespace characters. -/
def trimWs (s : Chars) : Chars :=
  ((s.dropWhile Char.isWhitespace).reverse.dropWhile Char.isWhitespace).reverse

/-- Helper for `splitWs`: accumulates the current token (reversed). -/
def splitWsGo : Chars → Chars → List Chars
  | [], acc => if acc.isEmpty then [] else [acc.reverse]
  | c :: r, acc =>
    if c.isWhitespace then
      if acc.isEmpty then splitWsGo r [] else acc.reverse :: splitWsGo r []
    else splitWsGo r (c :: acc)

/-- Python `str.split()` with no argument: split on runs of whitespace,
discarding empty tokens. -/
def splitWs (s : Chars) : List Chars := splitWsGo s []

/-- Numeric value of a decimal digit character. -/
def digitVal (c : Char) : Nat := c.toNat - 48

/-- Value of a string of decimal digits. -/
def decVal (l : Chars) : Nat := l.foldl (fun a c => 10 * a + digitVal c) 0

/-- Core of the Python `float(str)` model, after whitespace stripping:
an optional sign followed by decimal digits with an optional fractional part
(at least one digit overall).  This is the subset of the `float()` grammar
exercised by viewBox values; a string outside the grammar yields `none`,
modelling `float()` raising `ValueError`. -/
def pyFloatCore (s : Chars) : Option Rat :=
  let sgn : Int := match s with | '-' :: _ => -1 | _ => 1
  let t : Chars := match s with | '-' :: r => r | '+' :: r => r | r => r
  let ip := t.takeWhile (fun c => !(c == '.'))
  match t.dropWhile (fun c => !(c == '.')) with
  | [] =>
    if !ip.isEmpty && ip.all Char.isDigit then some ((sgn : Rat) * (decVal ip : Rat))
    else none
  | '.' :: fp =>
    if ip.all Char.isDigit && fp.all Char.isDigit && (!ip.isEmpty || !fp.isEmpty) then
      some ((sgn : Rat) * ((decVal ip : Rat) + (decVal fp : Rat) / (10 : Rat) ^ fp.length))
    else none
  | _ => none

/-- Model of Python `float(str)`: strip surrounding whitespace, then parse. -/
def pyFloat (s : Chars) : Option Rat := pyFloatCore (trimWs s)

/-- A parsed coordinate frame `(min-x, min-y, width, height)`. -/
abbrev Frame := Rat × Rat × Rat × Rat

/-- Top-level SVG child elements.  Source children are opaque; the groups
created by `transform_group` carry their transform numerically. -/
inductive Elem where
  | raw : Nat → Elem
  | g : Rat → Rat → Rat → Rat → List Elem → Elem

/-- A parsed component SVG document: the root's `viewBox` attribute (absent
attribute embedded as `none`) and the root's top-level children. -/
structure SvgDoc where
  viewBox : Option Chars
  children : List Elem

/-- Python exceptions that the engine can raise. -/
inductive PyErr where
  | parseError : PyErr
  | valueError : PyErr
  | zeroDivision : PyErr
deriving DecidableEq

/-- The token list `vb.replace(",", " ").split()` of `parse_viewbox`. -/
def vbTokens (vb : Chars) : List Chars :=
  splitWs (vb.map (fun c => if c == ',' then ' ' else c))

/-- The comprehension `[float(x) for x in tokens]`: `none` when `float()`
raises `ValueError` on some token. -/
def pyFloatList : List Chars → Option (List Rat)
  | [] => some []
  | t :: ts =>
    match pyFloat t with
    | none => none
    | some v =>
      match pyFloatList ts with
      | none => none
      | some vs => some (v :: vs)

/-- Embedding of `parse_viewbox` (compose_svg.py, lines 11-18), taking the
root's `viewBox` attribute value.  `if not vb` is true for a missing attribute
and for the empty string.  The comprehension `[float(x) for x in ...]` raises
`ValueError` on the first unparseable token, before the length test; this is
the `.error` case. -/
def parse_viewbox (vb? : Option Chars) : Except PyErr Frame :=
  match vb? with
  | none => .ok (0, 0, 1024, 1024)
  | some vb =>
    if vb.isEmpty then .ok (0, 0, 1024, 1024)
    else
      match pyFloatList (vbTokens vb) with
      | none => .error .valueError
      | some parts =>
        match parts with
        | [a, b, c, d] => .ok (a, b, c, d)
        | _ => .ok (0, 0, 1024, 1024)

/-- Embedding of `load_svg_children` (compose_svg.py, lines 20-25): `ET.parse`
raises `ParseError` on a malformed file (the `none` resource), otherwise the
root's children and its parsed viewBox are returned. -/
def load_svg_children (res : Option SvgDoc) : Except PyErr (List Elem × Frame) :=
  match res with
  | none => .error .parseError
  | some d =>
    match parse_viewbox d.viewBox with
    | .error e => .error e
    | .ok vb => .ok (d.children, vb)

/-- Python float division: raises `ZeroDivisionError` on a zero divisor. -/
def pydiv (a b : Rat) : Except PyErr Rat :=
  if b = 0 then .error .zeroDivision else .ok (a / b)

/-- A composed output document: `make_root_svg` gives it
`viewBox="0 0 size size"` plus `width`/`height` attributes, and the
compositor appends one transform group per component. -/
structure OutDoc where
  size : Rat
  children : List Elem

/-- Configuration surface of `compose_lr` (compose_svg.py, lines 48-59), with
the Python keyword defaults. -/
structure LRCfg where
  size : Rat := 1024
  gutter_ratio : Rat := 1/50
  left_width_ratio : Rat := 35/100
  height_ratio : Rat := 82/100
  outer_margin_ratio : Rat := 1/10
  slot_inset_ratio : Rat := 6/100
  align : Chars := "center".data

/-- Configuration surface of `compose_tb` (compose_svg.py, line 126). -/
structure TBCfg where
  size : Rat := 1024
  gutter_ratio : Rat := 1/50
  top_height_ratio : Rat := 33/100

/-- Geometry core of `compose_lr` (compose_svg.py, lines 68-119), after both
components have been loaded.  Mirrors the source line by line: clamping of the
three clamped ratios, slot layout, the four float divisions (each of which can
raise `ZeroDivisionError`), alignment, and assembly of the two `<g>` wrapper
groups in left-then-right order. -/
def composeLRgeom (cfg : LRCfg) (lf rf : Frame) (lch rch : List Elem) :
    Except PyErr OutDoc :=
  let lx0 := lf.1; let ly0 := lf.2.1; let lw := lf.2.2.1; let lh := lf.2.2.2
  let rx0 := rf.1; let ry0 := rf.2.1; let rw := rf.2.2.1; let rh := rf.2.2.2
  let lwr := max (1/20) (min (9/10) cfg.left_width_ratio)
  let omr := max 0 (min (1/5) cfg.outer_margin_ratio)
  let sir := max 0 (min (2/5) cfg.slot_inset_ratio)
  let gutter := cfg.size * cfg.gutter_ratio
  let outer_margin := cfg.size * omr
  let total_w := max 1 (cfg.size - 2 * outer_margin - gutter)
  let total_h := cfg.size * cfg.height_ratio
  let y_offset := (cfg.size - total_h) / 2
  let left_slot_w := total_w * lwr
  let right_slot_w := total_w - left_slot_w
  let left_slot_x := outer_margin
  let right_slot_x := outer_margin + left_slot_w + gutter
  let left_inner_w := left_slot_w * (1 - 2 * sir)
  let right_inner_w := right_slot_w * (1 - 2 * sir)
  let left_inner_x := left_slot_x + left_slot_w * sir
  let right_inner_x := right_slot_x + right_slot_w * sir
  match pydiv total_h lh with
  | .error e => .error e
  | .ok sy_left =>
  match pydiv left_inner_w lw with
  | .error e => .error e
  | .ok sx_left =>
  match pydiv total_h rh with
  | .error e => .error e
  | .ok sy_right =>
  match pydiv right_inner_w rw with
  | .error e => .error e
  | .ok sx_right =>
  let left_draw_w := lw * sx_left
  let left_draw_h := lh * sy_left
  let right_draw_w := rw * sx_right
  let right_draw_h := rh * sy_right
  let left_ty :=
    if cfg.align = "baseline".data then (cfg.size - left_draw_h) - ly0 * sy_left
    else y_offset + (total_h - left_draw_h) / 2 - ly0 * sy_left
  let right_ty :=
    if cfg.align = "baseline".data then (cfg.size - right_draw_h) - ry0 * sy_right
    else y_offset + (total_h - right_draw_h) / 2 - ry0 * sy_right
  let left_tx := left_inner_x + (left_inner_w - left_draw_w) / 2 - lx0 * sx_left
  let right_tx := right_inner_x + (right_inner_w - right_draw_w) / 2 - rx0 * sx_right
  .ok ⟨cfg.size,
    [Elem.g left_tx left_ty sx_left sy_left lch,
     Elem.g right_tx right_ty sx_right sy_right rch]⟩

/-- Embedding of `compose_lr` (compose_svg.py, lines 48-123): load both
component resources (left first), then run the layout geometry and return the
written output document.  File-system side effects (`os.makedirs`, the actual
write) carry no information beyond the document content and are not modelled. -/
def compose_lr (cfg : LRCfg) (left_svg right_svg : Option SvgDoc) :
    Except PyErr OutDoc :=
  match load_svg_children left_svg with
  | .error e => .error e
  | .ok pl =>
  match load_svg_children right_svg with
  | .error e => .error e
  | .ok pr => composeLRgeom cfg pl.2 pr.2 pl.1 pr.1

/-- Geometry core of `compose_tb` (compose_svg.py, lines 135-159): a gutter
splits the usable height into a top slot of share `top_height_ratio` and a
bottom slot with the remainder; each component gets the uniform scale
`min(slot_w / w, slot_h / h)` (four float divisions) and is centered in its
slot on both axes. -/
def composeTBgeom (cfg : TBCfg) (tf bf : Frame) (tch bch : List Elem) :
    Except PyErr OutDoc :=
  let tx0 := tf.1; let ty0 := tf.2.1; let tw := tf.2.2.1; let th := tf.2.2.2
  let bx0 := bf.1; let by0 := bf.2.1; let bw := bf.2.2.1; let bh := bf.2.2.2
  let gutter := cfg.size * cfg.gutter_ratio
  let usable_h := cfg.size - gutter
  let top_slot_h := usable_h * cfg.top_height_ratio
  let bot_slot_h := usable_h - top_slot_h
  let slot_w := cfg.size
  match pydiv slot_w tw with
  | .error e => .error e
  | .ok q1 =>
  match pydiv top_slot_h th with
  | .error e => .error e
  | .ok q2 =>
  match pydiv slot_w bw with
  | .error e => .error e
  | .ok q3 =>
  match pydiv bot_slot_h bh with
  | .error e => .error e
  | .ok q4 =>
  let top_scale := min q1 q2
  let bot_scale := min q3 q4
  let top_draw_w := tw * top_scale
  let top_draw_h := th * top_scale
  let bot_draw_w := bw * bot_scale
  let bot_draw_h := bh * bot_scale
  let top_tx := (cfg.size - top_draw_w) / 2 - tx0 * top_scale
  let top_ty := (top_slot_h - top_draw_h) / 2 - ty0 * top_scale
  let bot_tx := (cfg.size - bot_draw_w) / 2 - bx0 * bot_scale
  let bot_ty := top_slot_h + gutter + (bot_slot_h - bot_draw_h) / 2 - by0 * bot_scale
  .ok ⟨cfg.size,
    [Elem.g top_tx top_ty top_scale top_scale tch,
     Elem.g bot_tx bot_ty bot_scale bot_scale bch]⟩

/-- Embedding of `compose_tb` (compose_svg.py, lines 126-163): load both
component resources (top first), then run the stacked geometry. -/
def compose_tb (cfg : TBCfg) (top_svg bottom_svg : Option SvgDoc) :
    Except PyErr OutDoc :=
  match load_svg_children top_svg with
  | .error e => .error e
  | .ok pt =>
  match load_svg_children bottom_svg with
  | .error e => .error e
  | .ok pb => composeTBgeom cfg pt.2 pb.2 pt.1 pb.1

/-- Case-insensitive prefix test: the pattern is given in lowercase and each
text character is lowercased before comparison (the regexes of
`sanitize_svg_file` carry `re.IGNORECASE`). -/
def startsWithCI : Chars → Chars → Bool
  | [], _ => true
  | _ :: _, [] => false
  | p :: ps, c :: cs => (c.toLower == p) && startsWithCI ps cs

/-- Is this position the start of a `<svg\b` match (case-insensitive)?  The
word boundary requires the character after `svg`, if any, not to be a word
character. -/
def svgTagAt (s : Chars) : Bool :=
  startsWithCI "<svg".data s &&
    (match s.drop 4 with
     | [] => true
     | c :: _ => !(c.isAlphanum || c == '_'))

/-- Consume `[^>]*>`: characters up to and including the first `>`.  Returns
the consumed part and the remainder, or `none` if no `>` follows. -/
def takeThroughGt : Chars → Option (Chars × Chars)
  | [] => none
  | c :: r =>
    if c == '>' then some ([c], r)
    else
      match takeThroughGt r with
      | some (t, rest) => some (c :: t, rest)
      | none => none

/-- Model of `re.search(r"<svg\b[^>]*>", txt, re.IGNORECASE)`: the leftmost
match, returned as `(before, match, after)`.  When `<svg\b` matches but no
`>` follows, no later start can complete the pattern either (every later
match would need a `>` that does not exist), so the whole search fails. -/
def findSvgTag : Chars → Option (Chars × Chars × Chars)
  | [] => none
  | c :: r =>
    if svgTagAt (c :: r) then
      match takeThroughGt ((c :: r).drop 4) with
      | some (t, rest) => some ([], (c :: r).take 4 ++ t, rest)
      | none => none
    else
      match findSvgTag r with
      | some (b, t, rest) => some (c :: b, t, rest)
      | none => none

/-- The pattern `xmlns="` (the regex `\s+xmlns="[^"]*"` after its leading
whitespace). -/
def xmlnsQuote : Chars := "xmlns=\"".data

/-- Try to match `\s+xmlns="[^"]*"` at the start of the string
(case-insensitively); on success return the remainder after the match.
Backtracking cannot shorten the leading whitespace run, because the character
before `xmlns` would then be whitespace, not `x`, so the whole run plus the
attribute is consumed. -/
def matchSpan (s : Chars) : Option Chars :=
  let ws := s.takeWhile Char.isWhitespace
  let r1 := s.dropWhile Char.isWhitespace
  if ws.isEmpty then none
  else if startsWithCI xmlnsQuote r1 then
    match (r1.drop 7).dropWhile (fun c => !(c == '"')) with
    | '"' :: rest => some rest
    | _ => none
  else none

/-- Fuel-driven worker for `stripXmlns`; the fuel only needs to bound the
number of steps, and each step consumes at least one character, so
`s.length` is always enough. -/
def stripGo : Nat → Chars → Chars
  | _, [] => []
  | 0, s => s
  | f + 1, c :: r =>
    match matchSpan (c :: r) with
    | some rest => stripGo f rest
    | none => c :: stripGo f r

/-- Model of `re.sub(r'\s+xmlns="[^"]*"', "", root, flags=re.IGNORECASE)`:
delete every non-overlapping match, scanning left to right. -/
def stripXmlns (s : Chars) : Chars := stripGo s.length s

/-- Substring occurrence count: the number of positions where `p` is a
prefix of the remaining text. -/
def countSub (p : Chars) : Chars → Nat
  | [] => 0
  | c :: r => (if p.isPrefixOf (c :: r) then 1 else 0) + countSub p r

/-- Model of Python's case-sensitive substring test `p in s`. -/
def hasSub (p : Chars) : Chars → Bool
  | [] => p.isEmpty
  | c :: r => p.isPrefixOf (c :: r) || hasSub p r

/-- Model of Python `s.replace(pat, rep, 1)`: replace the first occurrence. -/
def replaceFirst (pat rep : Chars) : Chars → Chars
  | [] => []
  | c :: r =>
    if pat.isPrefixOf (c :: r) then rep ++ (c :: r).drop pat.length
    else c :: replaceFirst pat rep r

/-- The canonical replacement `'<svg xmlns="http://www.w3.org/2000/svg"'`
inserted by `sanitize_svg_file`. -/
def canonSvg : Chars := "<svg xmlns=\"http://www.w3.org/2000/svg\"".data

/-- The literal `xmlns=` tested by `"xmlns=" not in root_no_xmlns`
(case-sensitively). -/
def xmlnsEq : Chars := "xmlns=".data

/-- Rewrite of the matched root tag inside `sanitize_svg_file` (app.py,
lines 69-75): strip every `\s+xmlns="..."`, then, if the literal `xmlns=` no
longer occurs, replace the first `<svg` (case-sensitively) with the canonical
tag head. -/
def sanitize_root (root : Chars) : Chars :=
  let root_no_xmlns := stripXmlns root
  if hasSub xmlnsEq root_no_xmlns then root_no_xmlns
  else replaceFirst "<svg".data canonSvg root_no_xmlns

/-- Embedding of `sanitize_svg_file` (app.py, lines 56-81).  The argument is
the file's text, `none` when reading raises (swallowed, no write).  The result
is the text written back, `none` when nothing is written: unreadable file, no
root tag match, or an unchanged tag.  A swallowed write failure carries no
document content and is not modelled. -/
def sanitize_svg_file (txt? : Option Chars) : Option Chars :=
  match txt? with
  | none => none
  | some txt =>
    match findSvgTag txt with
    | none => none
    | some (b, root, a) =>
      let fixed := sanitize_root root
      if fixed = root then none else some (b ++ fixed ++ a)

/-- The layout choice of the web app: `lr` (side-by-side) or `tb` (stacked). -/
inductive Layout where
  | lr : Layout
  | tb : Layout
deriving DecidableEq

/-- The configuration `compose_new_character` passes to `compose_lr`
(app.py: `size=1024, gutter_ratio=0.0`, all other parameters defaulted). -/
def lrCfg0 : LRCfg := { gutter_ratio := 0 }

/-- The configuration `compose_new_character` passes to `compose_tb`. -/
def tbCfg0 : TBCfg := { gutter_ratio := 0 }

/-- Decimal rendering of an integer-valued `Rat`, as Python `str(int)`.
The driver only ever calls the compositor with the integer size 1024. -/
def intChars (q : Rat) : Chars := (toString q.num).data

/-- The `viewBox` attribute text `f"0 0 {size} {size}"` written by
`make_root_svg`. -/
def vbChars (size : Rat) : Chars :=
  "0 0 ".data ++ intChars size ++ [' '] ++ intChars size

/-- The persisted intermediate document as it is re-read by the next
composition pass: `compose_new_character` writes the intermediate to a
temporary file, runs `sanitize_svg_file` on it (which normalizes the root tag
to exactly one namespace declaration, making it re-parseable), and then lets
`compose_lr`/`compose_tb` parse it again.  The round trip preserves the
root's `viewBox` attribute and its top-level children (the two wrapper
groups). -/
def sanitize_reload (d : OutDoc) : SvgDoc :=
  ⟨some (vbChars d.size), d.children⟩

/-- The nested (`try`-block) path of a three-component request (app.py,
lines 205-219): for outer layout `lr`, stack `B` over `C`, sanitize, and put
`A` on the left of the reloaded intermediate; for outer layout `tb`, set `B`
beside `C`, sanitize, and stack `A` on top of the reloaded intermediate. -/
def nested3 (layout : Layout) (A B C : Option SvgDoc) : Except PyErr OutDoc :=
  match layout with
  | .lr =>
    match compose_tb tbCfg0 B C with
    | .error e => .error e
    | .ok mid => compose_lr lrCfg0 A (some (sanitize_reload mid))
  | .tb =>
    match compose_lr lrCfg0 B C with
    | .error e => .error e
    | .ok mid => compose_tb tbCfg0 A (some (sanitize_reload mid))

/-- Embedding of `compose_new_character` (app.py, lines 172-241).  Each pick
is embedded as its resolved SVG resource.  Result: `.ok none` is the
"not composable" `return None` for fewer than two picks; `.ok (some d)` is a
successful return of the written document; `.error e` is an uncaught
exception.  With three or more picks only the first three are used; the
`except` block falls back to the plain two-component composition of the first
two picks.  Output file names (time-stamped) and the temporary-file cleanup
(whose failures are swallowed) carry no document content and are not
modelled. -/
def compose_new_character (picks : List (Option SvgDoc)) (layout : Layout) :
    Except PyErr (Option OutDoc) :=
  match picks with
  | [] => .ok none
  | [_] => .ok none
  | A :: B :: rest =>
    match rest with
    | [] =>
      match layout with
      | .lr =>
        match compose_lr lrCfg0 A B with
        | .error e => .error e
        | .ok d => .ok (some d)
      | .tb =>
        match compose_tb tbCfg0 A B with
        | .error e => .error e
        | .ok d => .ok (some d)
    | C :: _ =>
      match nested3 layout A B C with
      | .ok d => .ok (some d)
      | .error _ =>
        match layout with
        | .lr =>
          match compose_lr lrCfg0 A B with
          | .error e => .error e
          | .ok d => .ok (some d)
        | .tb =>
          match compose_tb tbCfg0 A B with
          | .error e => .error e
          | .ok d => .ok (some d)

/-- A 1024×1024 component with origin (0,0): the shape of all 214 radical
inputs shipped with the app. -/
def unitDoc : SvgDoc := ⟨some "0 0 1024 1024".data, []⟩

/-- Claim C1, counterexample: a well-formed component whose `viewBox` value
splits into four tokens that are not numerals.  `parse_viewbox` evaluates
`float(x)` on every token before its length test, so `load_svg_children`
raises `ValueError` instead of returning the default frame: the load call
does not complete. -/
theorem c1_counterexample :
    load_svg_children (some ⟨some "a b c d".data, []⟩) = .error .valueError := by
  with_unfolding_all rfl

/-- Claim C1, amended: a missing `viewBox` attribute (or an empty value)
yields the default frame, and a value all of whose tokens parse as floats but
whose token count is not four also yields the default frame; but a value with
a token that does not parse as a float makes `load_svg_children` raise
`ValueError` rather than default. -/
theorem c1_amended (ch : List Elem) (vb : Chars) :
    load_svg_children (some ⟨none, ch⟩) = .ok (ch, (0, 0, 1024, 1024)) ∧
    (∀ parts : List Rat, pyFloatList (vbTokens vb) = some parts →
      parts.length ≠ 4 →
      load_svg_children (some ⟨some vb, ch⟩) = .ok (ch, (0, 0, 1024, 1024))) ∧
    (vb ≠ [] → pyFloatList (vbTokens vb) = none →
      load_svg_children (some ⟨some vb, ch⟩) = .error .valueError) := by
  refine ⟨rfl, ?_, ?_⟩
  · intro parts hp hlen
    by_cases he : vb.isEmpty
    · simp [load_svg_children, parse_viewbox, he]
    · rcases parts with _ | ⟨a, _ | ⟨b, _ | ⟨c, _ | ⟨d, _ | ⟨e, t⟩⟩⟩⟩⟩ <;>
        simp_all [load_svg_children, parse_viewbox, he]
  · intro hne hp
    have he : vb.isEmpty = false := by
      cases vb with
      | nil => exact absurd rfl hne
      | cons c r => rfl
    simp [load_svg_children, parse_viewbox, he, hp]

/-- Witness for `c1_amended`: a three-token numeric value defaults, and a
non-numeric token raises. -/
theorem c1_amended_witness :
    load_svg_children (some ⟨some "1 2 3".data, []⟩) = .ok ([], (0, 0, 1024, 1024)) ∧
    load_svg_children (some ⟨some "x".data, []⟩) = .error .valueError :=
  ⟨(c1_amended [] "1 2 3".data).2.1 [1, 2, 3] (by with_unfolding_all rfl)
      (by with_unfolding_all decide),
   (c1_amended [] "x".data).2.2 (by with_unfolding_all decide)
      (by with_unfolding_all rfl)⟩

/-- Claim C2, counterexample: a component frame with zero width (viewBox
`0 0 0 1024`) makes side-by-side composition raise `ZeroDivisionError`, and a
frame with zero height does the same to stacked composition; the degenerate
frame is not replaced by the default square and the composition does not
complete. -/
theorem c2_counterexample :
    compose_lr {} (some ⟨some "0 0 0 1024".data, []⟩) (some unitDoc) =
      .error .zeroDivision ∧
    compose_tb {} (some ⟨some "0 0 1024 0".data, []⟩) (some unitDoc) =
      .error .zeroDivision := by
  constructor <;> with_unfolding_all rfl

/-- Claim C2, amended: for components that load successfully, `compose_lr`
and `compose_tb` raise `ZeroDivisionError` exactly when one of the two frames
has width or height zero; there is no guard substituting the default square
(a frame with negative dimensions, in particular, is used as-is and does not
raise). -/
theorem c2_amended (lcfg : LRCfg) (tcfg : TBCfg) (l r : Option SvgDoc)
    (lc rc : List Elem) (lx0 ly0 lw lh rx0 ry0 rw rh : Rat)
    (hl : load_svg_children l = .ok (lc, (lx0, ly0, lw, lh)))
    (hr : load_svg_children r = .ok (rc, (rx0, ry0, rw, rh))) :
    (compose_lr lcfg l r = .error .zeroDivision ↔
      (lh = 0 ∨ lw = 0 ∨ rh = 0 ∨ rw = 0)) ∧
    (compose_tb tcfg l r = .error .zeroDivision ↔
      (lw = 0 ∨ lh = 0 ∨ rw = 0 ∨ rh = 0)) := by
  constructor
  · by_cases h1 : lh = 0 <;> by_cases h2 : lw = 0 <;>
      by_cases h3 : rh = 0 <;> by_cases h4 : rw = 0 <;>
      simp_all [compose_lr, composeLRgeom, pydiv, hl, hr]
  · by_cases h1 : lw = 0 <;> by_cases h2 : lh = 0 <;>
      by_cases h3 : rw = 0 <;> by_cases h4 : rh = 0 <;>
      simp_all [compose_tb, composeTBgeom, pydiv, hl, hr]

/-- Witness for `c2_amended` at a zero-height left/top component and a
non-degenerate right/bottom component. -/
theorem c2_amended_witness :
    (compose_lr {} (some ⟨some "0 0 1024 0".data, []⟩) (some unitDoc) =
        .error .zeroDivision ↔
      ((0 : Rat) = 0 ∨ (1024 : Rat) = 0 ∨ (1024 : Rat) = 0 ∨ (1024 : Rat) = 0)) ∧
    (compose_tb {} (some ⟨some "0 0 1024 0".data, []⟩) (some unitDoc) =
        .error .zeroDivision ↔
      ((1024 : Rat) = 0 ∨ (0 : Rat) = 0 ∨ (1024 : Rat) = 0 ∨ (1024 : Rat) = 0)) :=
  c2_amended {} {} _ _ _ _ 0 0 1024 0 0 0 1024 1024
    (by with_unfolding_all rfl) (by with_unfolding_all rfl)

/-- Claim C3, counterexample: a 3-component request whose first component A
is malformed.  The nested path raises while composing A against the
intermediate, and the fallback re-parses A and raises again, so
`compose_new_character` propagates the exception past its boundary instead of
returning a document. -/
theorem c3_counterexample :
    compose_new_character [none, some unitDoc, some unitDoc] .lr =
      .error .parseError := by
  with_unfolding_all rfl

/-- Claim C3, amended: when any exception is raised during the nested path of
a 3-component request, `compose_new_character` falls back to exactly the
computation of the corresponding 2-component request of (A, B) under the
requested outer layout — so it returns that composition's document when the
fallback succeeds, but re-raises (e.g. when A itself is malformed) when the
fallback fails. -/
theorem c3_amended (A B C : Option SvgDoc) (layout : Layout) (e : PyErr)
    (h : nested3 layout A B C = .error e) :
    compose_new_character [A, B, C] layout = compose_new_character [A, B] layout := by
  cases layout <;> simp [compose_new_character, h]

/-- Witness for `c3_amended`: the third component is malformed, the nested
path raises, and the request yields the plain (A, B) composition. -/
theorem c3_amended_witness :
    compose_new_character [some unitDoc, some unitDoc, none] .lr =
      compose_new_character [some unitDoc, some unitDoc] .lr :=
  c3_amended (some unitDoc) (some unitDoc) none .lr .parseError
    (by with_unfolding_all rfl)

/-- Claim C4, counterexample: a request of four components is not rejected
with any error before I/O — `compose_new_character` composes the first three
picks and returns a document. -/
theorem c4_counterexample :
    (compose_new_character
        [some unitDoc, some unitDoc, some unitDoc, some unitDoc] .lr).map
      Option.isSome = .ok true := by
  with_unfolding_all rfl

/-- Claim C4, amended: a request of 0 or 1 components returns the
"not composable" signal (`None`, before any composition work); but a request
of 4 or more components is not rejected: it is treated exactly as the
3-component request of its first three picks. -/
theorem c4_amended (picks : List (Option SvgDoc)) (layout : Layout) :
    (picks.length < 2 → compose_new_character picks layout = .ok none) ∧
    (3 ≤ picks.length →
      compose_new_character picks layout =
        compose_new_character (picks.take 3) layout) := by
  rcases picks with _ | ⟨a, _ | ⟨b, _ | ⟨c, t⟩⟩⟩ <;>
    refine ⟨fun h => ?_, fun h => ?_⟩ <;>
    first
      | rfl
      | (simp at h; try omega)

/-- Witness for `c4_amended`: the empty request returns `None`, and a
4-component request equals the request of its first three picks. -/
theorem c4_amended_witness :
    compose_new_character [] .lr = .ok none ∧
    compose_new_character
        [some unitDoc, some unitDoc, some unitDoc, some unitDoc] .tb =
      compose_new_character
        ([some unitDoc, some unitDoc, some unitDoc, some unitDoc].take 3) .tb :=
  ⟨(c4_amended [] .lr).1 (by decide),
   (c4_amended [some unitDoc, some unitDoc, some unitDoc, some unitDoc] .tb).2
     (by decide)⟩

/-- Extract the document of a successful composition (dummy on error);
used to name concrete intermediate documents in witness statements. -/
def getOutDoc : Except PyErr OutDoc → OutDoc
  | .ok d => d
  | .error _ => ⟨0, []⟩

/-- Claim C5: the fixed nesting policy of a 3-component request (A, B, C).
With outer layout side-by-side, the intermediate is the stacked composition
of (B, C); it is sanitized and reloaded, and A is composed side-by-side as
the first (left) operand against it.  With outer layout stacked, the
intermediate is the side-by-side composition of (B, C), sanitized and
reloaded, and A is composed stacked as the first (top) operand. -/
theorem c5_nesting_policy (A B C : Option SvgDoc) (mid1 fin1 mid2 fin2 : OutDoc) :
    (compose_tb tbCfg0 B C = .ok mid1 →
      compose_lr lrCfg0 A (some (sanitize_reload mid1)) = .ok fin1 →
      compose_new_character [A, B, C] .lr = .ok (some fin1)) ∧
    (compose_lr lrCfg0 B C = .ok mid2 →
      compose_tb tbCfg0 A (some (sanitize_reload mid2)) = .ok fin2 →
      compose_new_character [A, B, C] .tb = .ok (some fin2)) := by
  constructor <;> intro h1 h2 <;> simp [compose_new_character, nested3, h1, h2]

/-- Witness for `c5_nesting_policy` on three copies of the unit component,
outer layout side-by-side. -/
theorem c5_nesting_policy_witness :
    compose_new_character [some unitDoc, some unitDoc, some unitDoc] .lr =
      .ok (some (getOutDoc (compose_lr lrCfg0 (some unitDoc)
        (some (sanitize_reload
          (getOutDoc (compose_tb tbCfg0 (some unitDoc) (some unitDoc)))))))) :=
  (c5_nesting_policy (some unitDoc) (some unitDoc) (some unitDoc)
      (getOutDoc (compose_tb tbCfg0 (some unitDoc) (some unitDoc)))
      (getOutDoc (compose_lr lrCfg0 (some unitDoc)
        (some (sanitize_reload
          (getOutDoc (compose_tb tbCfg0 (some unitDoc) (some unitDoc)))))))
      ⟨0, []⟩ ⟨0, []⟩).1
    (by with_unfolding_all rfl) (by with_unfolding_all rfl)

/-- Claim C6: side-by-side placement formulas.  For components with positive
frame dimensions (and centered alignment), each component receives the
non-uniform scale `sy = total_h / component_h`, `sx = inner_slot_w /
component_w`, with `total_h = size * height_ratio` and the inner slot widths
derived from the outer margin, gutter, (clamped) left width ratio and slot
inset; the translations are `tx = slot_inner_x + (slot_inner_w - drawn_w)/2 -
x0*sx` and `ty = y_offset + (total_h - drawn_h)/2 - y0*sy`, so a component
whose frame origin is not (0,0) still lands centered in its inner slot.  The
equation hypotheses name each derived quantity exactly as the code computes
it. -/
theorem c6_lr_placement (cfg : LRCfg) (l r : Option SvgDoc)
    (lc rc : List Elem) (lx0 ly0 lw lh rx0 ry0 rw rh : Rat)
    (lwr omr sir gutter om tw th yoff lsw rsw liw riw lix rix
      sxl syl sxr syr : Rat)
    (hl : load_svg_children l = .ok (lc, (lx0, ly0, lw, lh)))
    (hr : load_svg_children r = .ok (rc, (rx0, ry0, rw, rh)))
    (hlw : 0 < lw) (hlh : 0 < lh) (hrw : 0 < rw) (hrh : 0 < rh)
    (ha : cfg.align = "center".data)
    (e1 : lwr = max (1/20) (min (9/10) cfg.left_width_ratio))
    (e2 : omr = max 0 (min (1/5) cfg.outer_margin_ratio))
    (e3 : sir = max 0 (min (2/5) cfg.slot_inset_ratio))
    (e4 : gutter = cfg.size * cfg.gutter_ratio)
    (e5 : om = cfg.size * omr)
    (e6 : tw = max 1 (cfg.size - 2 * om - gutter))
    (e7 : th = cfg.size * cfg.height_ratio)
    (e8 : yoff = (cfg.size - th) / 2)
    (e9 : lsw = tw * lwr)
    (e10 : rsw = tw - lsw)
    (e11 : liw = lsw * (1 - 2 * sir))
    (e12 : riw = rsw * (1 - 2 * sir))
    (e13 : lix = om + lsw * sir)
    (e14 : rix = om + lsw + gutter + rsw * sir)
    (e15 : syl = th / lh) (e16 : sxl = liw / lw)
    (e17 : syr = th / rh) (e18 : sxr = riw / rw) :
    compose_lr cfg l r = .ok ⟨cfg.size,
      [Elem.g (lix + (liw - lw * sxl) / 2 - lx0 * sxl)
              (yoff + (th - lh * syl) / 2 - ly0 * syl) sxl syl lc,
       Elem.g (rix + (riw - rw * sxr) / 2 - rx0 * sxr)
              (yoff + (th - rh * syr) / 2 - ry0 * syr) sxr syr rc]⟩ := by
  have hb : ¬ (cfg.align = "baseline".data) := by
    rw [ha]; decide
  subst e1 e2 e3 e4 e5 e6 e7 e8 e9 e10 e11 e12 e13 e14 e15 e16 e17 e18
  simp [compose_lr, hl, hr, composeLRgeom, pydiv, hlh.ne', hlw.ne',
    hrh.ne', hrw.ne', hb]

/-- Witness for `c6_lr_placement`: default configuration, a left component
with frame `(0, 0, 100, 200)` and an origin-shifted right component with
frame `(10, 20, 200, 100)`. -/
theorem c6_lr_placement_witness :
    compose_lr {} (some ⟨some "0 0 100 200".data, []⟩)
        (some ⟨some "10 20 200 100".data, []⟩) =
      .ok ⟨(1024 : Rat),
        [Elem.g ((372416/3125 : Rat) + ((768768/3125 : Rat) - 100 * ((768768/3125 : Rat) / 100)) / 2 -
                  0 * ((768768/3125 : Rat) / 100))
                ((2304/25 : Rat) + ((20992/25 : Rat) - 200 * ((20992/25 : Rat) / 200)) / 2 -
                  0 * ((20992/25 : Rat) / 200))
                ((768768/3125 : Rat) / 100) ((20992/25 : Rat) / 200) [],
         Elem.g ((1354944/3125 : Rat) + ((1427712/3125 : Rat) - 200 * ((1427712/3125 : Rat) / 200)) / 2 -
                  10 * ((1427712/3125 : Rat) / 200))
                ((2304/25 : Rat) + ((20992/25 : Rat) - 100 * ((20992/25 : Rat) / 100)) / 2 -
                  20 * ((20992/25 : Rat) / 100))
                ((1427712/3125 : Rat) / 200) ((20992/25 : Rat) / 100) []]⟩ :=
  c6_lr_placement {} (some ⟨some "0 0 100 200".data, []⟩)
    (some ⟨some "10 20 200 100".data, []⟩) [] [] 0 0 100 200 10 20 200 100
    (7/20) (1/10) (3/50) (512/25) (512/5) (19968/25) (20992/25) (2304/25)
    (34944/125) (64896/125) (768768/3125) (1427712/3125) (372416/3125)
    (1354944/3125)
    ((768768/3125 : Rat) / 100) ((20992/25 : Rat) / 200)
    ((1427712/3125 : Rat) / 200) ((20992/25 : Rat) / 100)
    (by with_unfolding_all rfl) (by with_unfolding_all rfl)
    (by norm_num) (by norm_num) (by norm_num) (by norm_num) rfl
    (by norm_num [max_def, min_def]) (by norm_num [max_def, min_def])
    (by norm_num [max_def, min_def]) (by norm_num) (by norm_num)
    (by norm_num) (by norm_num) (by norm_num) (by norm_num) (by norm_num)
    (by norm_num) (by norm_num) (by norm_num) (by norm_num)
    rfl rfl rfl rfl

/-- Claim C7: stacked placement.  For components with positive frame
dimensions, each component is scaled uniformly (the same factor on both axes)
by the minimum of its slot's width-fit and height-fit ratios, where the top
slot height is `(size - gutter) * top_height_ratio`, the bottom slot receives
the remaining usable height, both slots span the full canvas width, and each
component's drawn content is centered on both axes within its slot (the
bottom slot starting below the top slot and the gutter). -/
theorem c7_tb_placement (cfg : TBCfg) (t b : Option SvgDoc)
    (tc bc : List Elem) (tx0 ty0 tw th bx0 by0 bw bh : Rat)
    (gutter uh tsh bsh st sb : Rat)
    (ht : load_svg_children t = .ok (tc, (tx0, ty0, tw, th)))
    (hb : load_svg_children b = .ok (bc, (bx0, by0, bw, bh)))
    (htw : 0 < tw) (hth : 0 < th) (hbw : 0 < bw) (hbh : 0 < bh)
    (e1 : gutter = cfg.size * cfg.gutter_ratio)
    (e2 : uh = cfg.size - gutter)
    (e3 : tsh = uh * cfg.top_height_ratio)
    (e4 : bsh = uh - tsh)
    (e5 : st = min (cfg.size / tw) (tsh / th))
    (e6 : sb = min (cfg.size / bw) (bsh / bh)) :
    compose_tb cfg t b = .ok ⟨cfg.size,
      [Elem.g ((cfg.size - tw * st) / 2 - tx0 * st)
              ((tsh - th * st) / 2 - ty0 * st) st st tc,
       Elem.g ((cfg.size - bw * sb) / 2 - bx0 * sb)
              (tsh + gutter + (bsh - bh * sb) / 2 - by0 * sb) sb sb bc]⟩ := by
  subst e1 e2 e3 e4 e5 e6
  simp [compose_tb, ht, hb, composeTBgeom, pydiv, htw.ne', hth.ne',
    hbw.ne', hbh.ne']

/-- Witness for `c7_tb_placement`: default configuration, a top component
with frame `(0, 0, 100, 200)` and an origin-shifted bottom component with
frame `(10, 20, 200, 100)`; the top component is height-limited and the
bottom one width-limited. -/
theorem c7_tb_placement_witness :
    compose_tb {} (some ⟨some "0 0 100 200".data, []⟩)
        (some ⟨some "10 20 200 100".data, []⟩) =
      .ok ⟨(1024 : Rat),
        [Elem.g (((1024 : Rat) - 100 * (25872/15625)) / 2 - 0 * (25872/15625))
                (((206976/625 : Rat) - 200 * (25872/15625)) / 2 - 0 * (25872/15625))
                (25872/15625) (25872/15625) [],
         Elem.g (((1024 : Rat) - 200 * (128/25)) / 2 - 10 * (128/25))
                ((206976/625 : Rat) + 512/25 + ((420224/625 : Rat) - 100 * (128/25)) / 2 -
                  20 * (128/25))
                (128/25) (128/25) []]⟩ :=
  c7_tb_placement {} (some ⟨some "0 0 100 200".data, []⟩)
    (some ⟨some "10 20 200 100".data, []⟩) [] [] 0 0 100 200 10 20 200 100
    (512/25) (25088/25) (206976/625) (420224/625) (25872/15625) (128/25)
    (by with_unfolding_all rfl) (by with_unfolding_all rfl)
    (by norm_num) (by norm_num) (by norm_num) (by norm_num)
    (by norm_num) (by norm_num) (by norm_num) (by norm_num)
    (by norm_num [min_def]) (by norm_num [min_def])

/-- Clamping to `[a, b]` twice equals clamping once. -/
theorem clamp_idem (a b x : Rat) (hab : a ≤ b) :
    max a (min b (max a (min b x))) = max a (min b x) := by
  rw [min_eq_right (max_le hab (min_le_left b x)),
    max_eq_right (le_max_left a (min b x))]

/-- Claim C9, counterexample: `compose_tb` with the out-of-range
`gutter_ratio = 2` on two unit components.  The parameter is used without any
validation or clamping: the usable height becomes negative and both
components receive negative scale factors (the composition still completes
without raising).  Had `gutter_ratio` been clamped to any sub-range of
`[0, 1]`, the usable height `size - size*gutter_ratio` and both uniform
scales would be nonnegative, so the negative scales in the output show the
raw value reached the geometry. -/
theorem c9_counterexample :
    compose_tb { gutter_ratio := 2 } (some unitDoc) (some unitDoc) =
      .ok ⟨1024, [Elem.g (17024/25) 0 (-33/100) (-33/100) [],
                  Elem.g (21376/25) (42752/25) (-67/100) (-67/100) []]⟩ := by
  with_unfolding_all rfl

/-- Claim C9, amended: `compose_lr` clamps `left_width_ratio` to
`[0.05, 0.9]`, `outer_margin_ratio` to `[0, 0.2]` and `slot_inset_ratio` to
`[0, 0.4]` before use (pre-clamping those three parameters does not change
the result), and both compositors complete without raising for arbitrary
values of every configuration parameter whenever the component frames have
nonzero width and height; but `size`, `gutter_ratio`, `height_ratio`,
`top_height_ratio` and `align` are used without any validation or clamping. -/
theorem c9_amended (lcfg : LRCfg) (tcfg : TBCfg) (l r : Option SvgDoc)
    (lc rc : List Elem) (lx0 ly0 lw lh rx0 ry0 rw rh : Rat)
    (hl : load_svg_children l = .ok (lc, (lx0, ly0, lw, lh)))
    (hr : load_svg_children r = .ok (rc, (rx0, ry0, rw, rh)))
    (h1 : lw ≠ 0) (h2 : lh ≠ 0) (h3 : rw ≠ 0) (h4 : rh ≠ 0) :
    compose_lr lcfg l r =
      compose_lr { lcfg with
        left_width_ratio := max (1/20) (min (9/10) lcfg.left_width_ratio),
        outer_margin_ratio := max 0 (min (1/5) lcfg.outer_margin_ratio),
        slot_inset_ratio := max 0 (min (2/5) lcfg.slot_inset_ratio) } l r ∧
    (∃ d1, compose_lr lcfg l r = .ok d1) ∧
    (∃ d2, compose_tb tcfg l r = .ok d2) := by
  have k1 := clamp_idem (1/20) (9/10) lcfg.left_width_ratio (by norm_num)
  have k2 := clamp_idem 0 (1/5) lcfg.outer_margin_ratio (by norm_num)
  have k3 := clamp_idem 0 (2/5) lcfg.slot_inset_ratio (by norm_num)
  refine ⟨?_, ?_, ?_⟩
  · unfold compose_lr
    cases load_svg_children l with
    | error e => rfl
    | ok pl =>
      cases load_svg_children r with
      | error e => rfl
      | ok pr =>
        simp only [composeLRgeom]
        rw [k1, k2, k3]
  · simp [compose_lr, hl, hr, composeLRgeom, pydiv, h1, h2, h3, h4]
  · simp [compose_tb, hl, hr, composeTBgeom, pydiv, h1, h2, h3, h4]

/-- Witness for `c9_amended`: every configuration parameter out of its
documented range at once; the composition still completes on unit
components, and pre-clamping the three clamped parameters changes nothing. -/
theorem c9_amended_witness :
    (compose_lr
        { size := 1024, gutter_ratio := -3, left_width_ratio := 50,
          height_ratio := 5, outer_margin_ratio := 9, slot_inset_ratio := -2,
          align := "weird".data } (some unitDoc) (some unitDoc) =
      compose_lr
        { size := 1024, gutter_ratio := -3,
          left_width_ratio := max (1/20) (min (9/10) (50 : Rat)),
          height_ratio := 5,
          outer_margin_ratio := max 0 (min (1/5) (9 : Rat)),
          slot_inset_ratio := max 0 (min (2/5) (-2 : Rat)),
          align := "weird".data } (some unitDoc) (some unitDoc)) ∧
    (∃ d1, compose_lr
        { size := 1024, gutter_ratio := -3, left_width_ratio := 50,
          height_ratio := 5, outer_margin_ratio := 9, slot_inset_ratio := -2,
          align := "weird".data } (some unitDoc) (some unitDoc) = .ok d1) ∧
    (∃ d2, compose_tb { size := 1024, gutter_ratio := 3/2, top_height_ratio := 44 }
        (some unitDoc) (some unitDoc) = .ok d2) :=
  c9_amended _ _ (some unitDoc) (some unitDoc) [] [] 0 0 1024 1024 0 0 1024 1024
    (by with_unfolding_all rfl) (by with_unfolding_all rfl)
    (by norm_num) (by norm_num) (by norm_num) (by norm_num)

/-- `takeThroughGt` splits its input: the consumed tag tail plus the
remainder reassemble to the input. -/
theorem takeThroughGt_split (s t r : Chars) (h : takeThroughGt s = some (t, r)) :
    s = t ++ r := by
  induction s generalizing t r with
  | nil => simp [takeThroughGt] at h
  | cons c cs ih =>
    simp only [takeThroughGt] at h
    by_cases hc : (c == '>') = true
    · rw [if_pos hc] at h
      simp only [Option.some.injEq, Prod.mk.injEq] at h
      obtain ⟨h1, h2⟩ := h
      subst h1; subst h2; rfl
    · rw [if_neg hc] at h
      cases heq : takeThroughGt cs with
      | none => rw [heq] at h; cases h
      | some p =>
        obtain ⟨t2, rest⟩ := p
        rw [heq] at h
        simp only [Option.some.injEq, Prod.mk.injEq] at h
        obtain ⟨h1, h2⟩ := h
        subst h1; subst h2
        simpa using congrArg (c :: ·) (ih t2 rest heq)

/-- `findSvgTag` splits its input: prefix, matched root tag and suffix
reassemble to the input. -/
theorem findSvgTag_split (s b t a : Chars) (h : findSvgTag s = some (b, t, a)) :
    s = b ++ t ++ a := by
  induction s generalizing b with
  | nil => simp [findSvgTag] at h
  | cons c cs ih =>
    simp only [findSvgTag] at h
    by_cases hc : svgTagAt (c :: cs) = true
    · rw [if_pos hc] at h
      cases heq : takeThroughGt ((c :: cs).drop 4) with
      | none => rw [heq] at h; cases h
      | some p =>
        obtain ⟨t2, rest⟩ := p
        rw [heq] at h
        simp only [Option.some.injEq, Prod.mk.injEq] at h
        obtain ⟨h1, h2, h3⟩ := h
        subst h1; subst h2; subst h3
        have hsplit := takeThroughGt_split _ _ _ heq
        calc c :: cs = (c :: cs).take 4 ++ (c :: cs).drop 4 :=
              (List.take_append_drop 4 (c :: cs)).symm
          _ = (c :: cs).take 4 ++ (t2 ++ rest) := by rw [← hsplit]
          _ = [] ++ ((c :: cs).take 4 ++ t2) ++ rest := by simp
    · rw [if_neg hc] at h
      cases heq : findSvgTag cs with
      | none => rw [heq] at h; cases h
      | some p =>
        obtain ⟨b2, t2, a2⟩ := p
        rw [heq] at h
        simp only [Option.some.injEq, Prod.mk.injEq] at h
        obtain ⟨h1, h2, h3⟩ := h
        subst h1; subst h2; subst h3
        simpa using congrArg (c :: ·) (ih b2 heq)

/-- Claim C10: `sanitize_svg_file` modifies at most the substring matched as
the first `<svg ...>` open tag.  An unreadable file, a file with no root tag
match, and a file whose rewritten tag equals the original are not written at
all; when the file is written, every character before and after the matched
tag is preserved unchanged and only the tag is replaced by its sanitized
form. -/
theorem c10_sanitize_frame (txt b t a : Chars) :
    sanitize_svg_file none = none ∧
    (findSvgTag txt = none → sanitize_svg_file (some txt) = none) ∧
    (findSvgTag txt = some (b, t, a) → sanitize_root t = t →
      sanitize_svg_file (some txt) = none) ∧
    (∀ out, sanitize_svg_file (some txt) = some out →
      ∃ b2 t2 a2, findSvgTag txt = some (b2, t2, a2) ∧ txt = b2 ++ t2 ++ a2 ∧
        out = b2 ++ sanitize_root t2 ++ a2 ∧ sanitize_root t2 ≠ t2) := by
  refine ⟨rfl, ?_, ?_, ?_⟩
  · intro h
    simp [sanitize_svg_file, h]
  · intro h hfix
    simp [sanitize_svg_file, h, hfix]
  · intro out h
    simp only [sanitize_svg_file] at h
    cases heq : findSvgTag txt with
    | none => rw [heq] at h; cases h
    | some p =>
      obtain ⟨b2, t2, a2⟩ := p
      rw [heq] at h
      dsimp only at h
      by_cases hfix : sanitize_root t2 = t2
      · rw [if_pos hfix] at h; cases h
      · rw [if_neg hfix] at h
        simp only [Option.some.injEq] at h
        exact ⟨b2, t2, a2, rfl, findSvgTag_split _ _ _ _ heq, h.symm, hfix⟩

/-- Witness for `c10_sanitize_frame`: a file with no root tag is untouched,
and a file with a duplicated namespace declaration is rewritten with its
prefix and suffix preserved. -/
theorem c10_sanitize_frame_witness :
    sanitize_svg_file (some "no tag here".data) = none ∧
    (∃ b2 t2 a2,
      findSvgTag "ab<svg xmlns=\"a\" xmlns=\"b\">x</svg>".data = some (b2, t2, a2) ∧
      "ab<svg xmlns=\"a\" xmlns=\"b\">x</svg>".data = b2 ++ t2 ++ a2 ∧
      "ab<svg xmlns=\"http://www.w3.org/2000/svg\">x</svg>".data =
        b2 ++ sanitize_root t2 ++ a2 ∧
      sanitize_root t2 ≠ t2) :=
  ⟨(c10_sanitize_frame "no tag here".data [] [] []).2.1 (by with_unfolding_all rfl),
   (c10_sanitize_frame "ab<svg xmlns=\"a\" xmlns=\"b\">x</svg>".data [] [] []).2.2.2
     "ab<svg xmlns=\"http://www.w3.org/2000/svg\">x</svg>".data
     (by with_unfolding_all rfl)⟩

/-- A non-whitespace character never starts a `\s+xmlns="..."` match. -/
theorem matchSpan_cons_nonws (c : Char) (r : Chars) (h : c.isWhitespace = false) :
    matchSpan (c :: r) = none := by
  simp [matchSpan, List.takeWhile_cons, h]

/-- `stripGo` keeps a non-whitespace head character. -/
theorem stripGo_cons_nonws (f : Nat) (c : Char) (r : Chars)
    (h : c.isWhitespace = false) :
    stripGo (f + 1) (c :: r) = c :: stripGo f r := by
  simp [stripGo, matchSpan_cons_nonws c r h]

/-- `stripXmlns` keeps a non-whitespace head character. -/
theorem stripXmlns_cons_nonws (c : Char) (r : Chars) (h : c.isWhitespace = false) :
    stripXmlns (c :: r) = c :: stripXmlns r := by
  show stripGo (c :: r).length (c :: r) = c :: stripGo r.length r
  rw [List.length_cons]
  exact stripGo_cons_nonws r.length c r h

/-- If a string has no occurrence of `p`, then it has no occurrence of any
extension `q` of `p` either: the occurrence count of `q` is zero. -/
theorem countSub_zero_of_hasSub_prefix (p q s : Chars) (hpq : p <+: q)
    (h : hasSub p s = false) : countSub q s = 0 := by
  induction s with
  | nil => rfl
  | cons c r ih =>
    simp only [hasSub, Bool.or_eq_false_iff] at h
    have hq : q.isPrefixOf (c :: r) = false := by
      cases hqp : q.isPrefixOf (c :: r) with
      | false => rfl
      | true =>
        have : p.isPrefixOf (c :: r) = true :=
          List.isPrefixOf_iff_prefix.mpr
            (hpq.trans (List.isPrefixOf_iff_prefix.mp hqp))
        rw [this] at h
        exact absurd h.1 (by simp)
    simp [countSub, hq, ih h.2]

/-- Stepping over a character other than `x` does not change the number of
`xmlns="` occurrences. -/
theorem countSub_x_cons_ne (c : Char) (r : Chars) (h : (c == 'x') = false) :
    countSub xmlnsQuote (c :: r) = countSub xmlnsQuote r := by
  have hxc : ('x' == c) = false :=
    beq_eq_false_iff_ne.mpr (Ne.symm (beq_eq_false_iff_ne.mp h))
  have hp : xmlnsQuote.isPrefixOf (c :: r) = false := by
    show List.isPrefixOf ('x' :: "mlns=\"".data) (c :: r) = false
    simp [List.isPrefixOf, hxc]
  simp [countSub, hp]

/-- Stepping over the head of a literal `xmlns="` counts one occurrence. -/
theorem countSub_x_cons_match (r : Chars) :
    countSub xmlnsQuote
        ('x' :: 'm' :: 'l' :: 'n' :: 's' :: '=' :: '"' :: r) =
      1 + countSub xmlnsQuote ('m' :: 'l' :: 'n' :: 's' :: '=' :: '"' :: r) := by
  have hp : xmlnsQuote.isPrefixOf
      ('x' :: 'm' :: 'l' :: 'n' :: 's' :: '=' :: '"' :: r) = true := by
    show List.isPrefixOf ('x' :: 'm' :: 'l' :: 'n' :: 's' :: '=' :: '"' :: []) _ = true
    simp [List.isPrefixOf]
  simp [countSub, hp]

/-- The canonical tag head contributes exactly one `xmlns="` declaration,
for every continuation: no suffix of it starts another occurrence across the
boundary. -/
theorem countSub_canon_append (tail : Chars) :
    countSub xmlnsQuote (canonSvg ++ tail) = 1 + countSub xmlnsQuote tail := by
  show countSub xmlnsQuote
    ('<' :: 's' :: 'v' :: 'g' :: ' ' :: 'x' :: 'm' :: 'l' :: 'n' :: 's' :: '=' ::
     '"' :: 'h' :: 't' :: 't' :: 'p' :: ':' :: '/' :: '/' :: 'w' :: 'w' :: 'w' ::
     '.' :: 'w' :: '3' :: '.' :: 'o' :: 'r' :: 'g' :: '/' :: '2' :: '0' :: '0' ::
     '0' :: '/' :: 's' :: 'v' :: 'g' :: '"' :: tail) = 1 + countSub xmlnsQuote tail
  simp (disch := decide) only [countSub_x_cons_match, countSub_x_cons_ne]

/-- Claim C8, counterexample: two stored documents with a locatable root
`<svg ...>` open tag and zero namespace declarations (zero occurrences of the
declaration text `xmlns="`) that gain none.  First, a root whose tag merely
contains the literal text `xmlns=` inside an attribute value: nothing is
stripped, the case-sensitive containment test `"xmlns=" not in ...` finds
that text, so no canonical declaration is inserted and the tag is kept with
zero declarations, unwritten.  Second, an uppercase `<SVG >` root: the regex
search matches it case-insensitively, but the case-sensitive
`str.replace("<svg", ...)` finds nothing to replace, so the root again keeps
zero declarations. -/
theorem c8_counterexample :
    sanitize_svg_file (some "<svg data-x=\"xmlns=y\"><g/></svg>".data) = none ∧
    countSub xmlnsQuote (sanitize_root "<svg data-x=\"xmlns=y\">".data) = 0 ∧
    sanitize_svg_file (some "<SVG ><g/></svg>".data) = none ∧
    countSub xmlnsQuote (sanitize_root "<SVG >".data) = 0 := by
  refine ⟨?_, ?_, ?_, ?_⟩ <;> with_unfolding_all rfl

/-- Claim C8, amended: for every root tag that begins with lowercase `<svg`
and in which, after stripping all whitespace-preceded double-quoted
declarations, the literal text `xmlns=` no longer occurs, the sanitized tag
carries exactly one `xmlns="` namespace declaration — in particular a root
with zero declarations gains exactly one canonical declaration, and a root
with N > 1 whitespace-preceded double-quoted duplicates is reduced to
exactly one.  (Roots violating the side conditions — an uppercase `<SVG`, or
residual `xmlns=` text such as text inside another attribute value — can be
left with zero declarations, as the counterexample shows.) -/
theorem c8_amended (root : Chars)
    (hpre : List.isPrefixOf "<svg".data root = true)
    (hx : hasSub xmlnsEq (stripXmlns root) = false) :
    countSub xmlnsQuote (sanitize_root root) = 1 := by
  obtain ⟨t, ht⟩ := List.isPrefixOf_iff_prefix.mp hpre
  have hroot : root = '<' :: 's' :: 'v' :: 'g' :: t := ht.symm
  subst hroot
  have hstrip : stripXmlns ('<' :: 's' :: 'v' :: 'g' :: t) =
      '<' :: 's' :: 'v' :: 'g' :: stripXmlns t := by
    simp (disch := decide) only [stripXmlns_cons_nonws]
  have hzero : countSub xmlnsQuote (stripXmlns t) = 0 := by
    have h0 := countSub_zero_of_hasSub_prefix xmlnsEq xmlnsQuote _
      (by decide) (hstrip ▸ hx)
    rw [countSub_x_cons_ne, countSub_x_cons_ne, countSub_x_cons_ne,
      countSub_x_cons_ne] at h0 <;> first | exact h0 | rfl
  have hprefix : List.isPrefixOf "<svg".data
      ('<' :: 's' :: 'v' :: 'g' :: stripXmlns t) = true := by
    show List.isPrefixOf ('<' :: 's' :: 'v' :: 'g' :: []) _ = true
    simp [List.isPrefixOf]
  simp only [sanitize_root, hstrip, hx, Bool.false_eq_true, if_false]
  rw [hstrip] at hx
  simp only [hx, Bool.false_eq_true, if_false, replaceFirst, hprefix, if_true]
  have hdrop : ('<' :: 's' :: 'v' :: 'g' :: stripXmlns t).drop "<svg".data.length =
      stripXmlns t := rfl
  rw [hdrop, countSub_canon_append, hzero]

/-- Witness for `c8_amended`: a root tag with two duplicate declarations is
reduced to exactly one, and a root tag with zero declarations gains exactly
one. -/
theorem c8_amended_witness :
    countSub xmlnsQuote (sanitize_root "<svg xmlns=\"a\" xmlns=\"b\">".data) = 1 ∧
    countSub xmlnsQuote (sanitize_root "<svg viewBox=\"0 0 1 1\">".data) = 1 :=
  ⟨c8_amended "<svg xmlns=\"a\" xmlns=\"b\">".data
      (by with_unfolding_all rfl) (by with_unfolding_all rfl),
   c8_amended "<svg viewBox=\"0 0 1 1\">".data
      (by with_unfolding_all rfl) (by with_unfolding_all rfl)⟩
